import Mathlib

/-!
Shallow embedding of the session-lifecycle controller and watchdog of the
`centrometal_boiler` Home Assistant integration.

The embedding models:
* `WebBoilerSystem` (`custom_components/centrometal_boiler/__init__.py`):
  its mutable fields (`last_relogin_timestamp`, `last_refresh_timestamp`,
  `_tick_unsub`) as `SysState`, and its methods `start`, `tick`, `relogin`,
  `start_tick`, `cancel_tick` as pure state transformers.  Calls into the
  external `WebBoilerClient` are resolved by an environment record carrying
  the boolean results the client would return, and every client call (plus
  every timestamp assignment) is emitted into an ordered event trace so that
  ordering properties ("timestamp set before the network call") are
  expressible.
* the watchdog in `custom_components/centrometal_boiler/sensor.py`
  (`_latest_param_ts`, `_start_or_replace_watchdog` and its inner `_tick`),
  with the per-account `hass.data` store as `WdStore` (dict entries that may
  be absent are `Option` fields, reads use the same defaults as the Python
  `dict.get` calls).

Machine time (`datetime.datetime.now().timestamp()`, `time.time()`) is an
`Int` supplied by the caller/environment.  The host timer facility
(`async_track_time_interval` and the unsubscribe callbacks it returns) is a
`TimerWorld`: a fresh-id supply plus the list of currently active timer ids.
The intervals `WEB_BOILER_LOGIN_RETRY_INTERVAL` / `WEB_BOILER_REFRESH_INTERVAL`
come from `const.py` and are passed as parameters.
-/

namespace Centrometal

/-- One observable action of the session controller, in program order:
either a call into the external client or an assignment to one of the two
timestamp fields of `WebBoilerSystem`. -/
inductive Event where
  | login
  | getConfiguration
  | startWebsocket
  | closeWebsocket
  | closeHttpSession
  | clientRelogin
  | clientRefresh
  | setReloginTs (ts : Int)
  | setRefreshTs (ts : Int)
  deriving DecidableEq, Repr

/-- The mutable fields of `WebBoilerSystem` relevant to the lifecycle logic:
`last_relogin_timestamp`, `last_refresh_timestamp` and the periodic-timer
unsubscribe handle `_tick_unsub` (modelled as the id of the active timer). -/
structure SysState where
  lastReloginTimestamp : Int
  lastRefreshTimestamp : Int
  tickUnsub : Option Nat
  deriving DecidableEq, Repr

/-- `WebBoilerSystem.__init__`: both timestamps are initialised to the
current time and no tick timer is installed. -/
def initState (nowTs : Int) : SysState :=
  { lastReloginTimestamp := nowTs
    lastRefreshTimestamp := nowTs
    tickUnsub := none }

/-- Environment for one `relogin()` call: the value `time.time()` returns at
entry, the results of `web_boiler_client.relogin()` and of the follow-up
`refresh()`, and the value `time.time()` returns after a successful
refresh. -/
structure ReloginEnv where
  invocationTime : Int
  reloginResult : Bool
  refreshResult : Bool
  postRefreshTime : Int
  deriving DecidableEq, Repr

/-- Result of `relogin()`: the updated state and the ordered trace of
actions performed. -/
structure ReloginOut where
  state : SysState
  events : List Event
  deriving DecidableEq, Repr

/-- `WebBoilerSystem.relogin` (lines 321-346): set `last_relogin_timestamp`
to `time.time()`, close the websocket and the HTTP session (both
best-effort, exceptions swallowed), call `web_boiler_client.relogin()`; on
success restart the websocket and refresh, recording
`last_refresh_timestamp` when that refresh succeeds; on failure only log. -/
def relogin (st : SysState) (env : ReloginEnv) : ReloginOut :=
  let st1 := { st with lastReloginTimestamp := env.invocationTime }
  let evs := [Event.setReloginTs env.invocationTime, Event.closeWebsocket,
              Event.closeHttpSession, Event.clientRelogin]
  if env.reloginResult then
    let evs2 := evs ++ [Event.startWebsocket, Event.clientRefresh]
    if env.refreshResult then
      { state := { st1 with lastRefreshTimestamp := env.postRefreshTime }
        events := evs2 ++ [Event.setRefreshTs env.postRefreshTime] }
    else
      { state := st1, events := evs2 }
  else
    { state := st1, events := evs }

/-- Environment for one `tick()` call: the result of
`is_websocket_connected()` (`none` models the call raising, which the code
turns into `connected = False`), the result of `web_boiler_client.refresh()`
should the refresh branch run, and the environment of the nested `relogin()`
should it be invoked. -/
structure TickEnv where
  connectedResult : Option Bool
  refreshResult : Bool
  reloginEnv : ReloginEnv
  deriving DecidableEq, Repr

/-- Result of `tick()`: the state, the action trace, how many times
`relogin()` was invoked, and whether control reached the body of the
connected-refresh branch (`if now - self.last_refresh_timestamp > ...`). -/
structure TickOut where
  state : SysState
  events : List Event
  reloginInvocations : Nat
  refreshBranchTaken : Bool
  deriving DecidableEq, Repr

/-- `WebBoilerSystem.tick` (lines 287-319), with the two interval constants
from `const.py` passed as `retryInterval` / `refreshInterval` and
`datetime.datetime.now().timestamp()` passed as `now`.  Disconnected: if
`now - last_relogin_timestamp > retryInterval` invoke `relogin()`, else do
nothing, and in both cases return.  Connected: if
`now - last_refresh_timestamp > refreshInterval`, set
`last_refresh_timestamp := now`, call `refresh()`, and on a false result
invoke `relogin()`. -/
def tick (retryInterval refreshInterval : Int) (now : Int)
    (st : SysState) (env : TickEnv) : TickOut :=
  let connected := match env.connectedResult with
    | some b => b
    | none => false
  if connected = false then
    if now - st.lastReloginTimestamp > retryInterval then
      let r := relogin st env.reloginEnv
      { state := r.state, events := r.events
        reloginInvocations := 1, refreshBranchTaken := false }
    else
      { state := st, events := [], reloginInvocations := 0
        refreshBranchTaken := false }
  else
    if now - st.lastRefreshTimestamp > refreshInterval then
      let st1 := { st with lastRefreshTimestamp := now }
      let evs := [Event.setRefreshTs now, Event.clientRefresh]
      if env.refreshResult then
        { state := st1, events := evs, reloginInvocations := 0
          refreshBranchTaken := true }
      else
        let r := relogin st1 env.reloginEnv
        { state := r.state, events := evs ++ r.events
          reloginInvocations := 1, refreshBranchTaken := true }
    else
      { state := st, events := [], reloginInvocations := 0
        refreshBranchTaken := false }

/-- Environment for one `start()` call: results of `login()` and
`get_configuration()`, the size of `web_boiler_client.data`, and the value
`time.time()` returns after the initial refresh. -/
structure StartEnv where
  loginResult : Bool
  getConfigurationResult : Bool
  dataLen : Nat
  refreshTime : Int
  deriving DecidableEq, Repr

/-- Result of `start()`: state, trace, and the boolean return value. -/
structure StartOut where
  state : SysState
  events : List Event
  ok : Bool
  deriving DecidableEq, Repr

/-- `WebBoilerSystem.start` (lines 216-253): login, configuration fetch,
non-empty device check, websocket start, initial refresh (result ignored)
recording `last_refresh_timestamp`; any failing step raises, is caught and
turned into a `false` return with no further steps executed. -/
def start (st : SysState) (env : StartEnv) : StartOut :=
  if env.loginResult = false then
    { state := st, events := [Event.login], ok := false }
  else if env.getConfigurationResult = false then
    { state := st, events := [Event.login, Event.getConfiguration], ok := false }
  else if env.dataLen = 0 then
    { state := st, events := [Event.login, Event.getConfiguration], ok := false }
  else
    { state := { st with lastRefreshTimestamp := env.refreshTime }
      events := [Event.login, Event.getConfiguration, Event.startWebsocket,
                 Event.clientRefresh, Event.setRefreshTs env.refreshTime]
      ok := true }

/-- The host platform's timer facility (`async_track_time_interval` and the
unsubscribe callbacks it hands out): a supply of fresh timer ids and the
ids of the timers currently scheduled. -/
structure TimerWorld where
  nextId : Nat
  active : List Nat
  deriving DecidableEq, Repr

/-- `WebBoilerSystem.cancel_tick` (lines 269-276): if an unsubscribe handle
is present, invoke it (errors swallowed) and clear the field; otherwise do
nothing. -/
def cancelTick (st : SysState) (w : TimerWorld) : SysState × TimerWorld :=
  match st.tickUnsub with
  | none => (st, w)
  | some id =>
    ({ st with tickUnsub := none }, { w with active := w.active.erase id })

/-- `WebBoilerSystem.start_tick` (lines 255-267): first `cancel_tick()`,
then install a fresh periodic timer and store its unsubscribe handle. -/
def startTick (st : SysState) (w : TimerWorld) : SysState × TimerWorld :=
  let p := cancelTick st w
  ({ p.1 with tickUnsub := some p.2.nextId },
   { p.2 with nextId := p.2.nextId + 1, active := p.2.nextId :: p.2.active })

/-- The tick-timer bookkeeping invariant: the session's stored handle and
the host's active-timer list agree, and at most one timer is active. -/
def tickTimerInvB (st : SysState) (w : TimerWorld) : Bool :=
  match st.tickUnsub with
  | none => w.active == []
  | some id => w.active == [id] && decide (id < w.nextId)

/-- Result of `async_setup_entry` restricted to the session lifecycle:
the session state and timer world after setup, the boolean `start()`
returned, the trace `start()` produced, and the entry-setup return value. -/
structure SetupOut where
  state : SysState
  world : TimerWorld
  startOk : Bool
  startEvents : List Event
  result : Bool
  deriving DecidableEq, Repr

/-- The session-lifecycle portion of `async_setup_entry` (lines 99-141):
construct the `WebBoilerSystem` (both timestamps := now, no timer), call
`start()`, log on failure but continue regardless, then call
`start_tick()` unconditionally, and return `True`. -/
def asyncSetupEntry (nowTs : Int) (w : TimerWorld) (env : StartEnv) : SetupOut :=
  let s := start (initState nowTs) env
  let p := startTick s.state w
  { state := p.1, world := p.2, startOk := s.ok
    startEvents := s.events, result := true }

/-! ## Watchdog (`custom_components/centrometal_boiler/sensor.py`) -/

/-- `_WATCHDOG_INTERVAL` (2 minutes), in seconds. -/
def watchdogIntervalSeconds : Int := 2 * 60

/-- `_STALE_SECONDS` (data considered stale after 10 minutes). -/
def staleSeconds : Int := 10 * 60

/-- `_RELOAD_COOLDOWN_SECONDS` (15 minutes between reloads). -/
def reloadCooldownSeconds : Int := 15 * 60

/-- A non-`None` Python value found under a parameter's `"timestamp"` key:
an integer, a string (convertible by `int()` exactly when it parses as an
integer), or any other object (`int()` raises `TypeError`). -/
inductive TsVal where
  | vInt (n : Int)
  | vStr (s : String)
  | vOther
  deriving DecidableEq, Repr

/-- Python `int(ts)` restricted to the modelled values, `none` when it
would raise `ValueError`/`TypeError`. -/
def TsVal.toIntOpt : TsVal → Option Int
  | vInt n => some n
  | vStr s => s.toInt?
  | vOther => none

/-- A device parameter as read by the watchdog: `p.get("timestamp")`,
`none` when the key is absent or holds `None`. -/
structure Param where
  timestamp : Option TsVal
  deriving DecidableEq, Repr

/-- A device as read by the watchdog: `device.get("parameters", {})`. -/
structure Device where
  parameters : List Param
  deriving DecidableEq, Repr

/-- Loop body of `_latest_param_ts` for one parameter (lines 44-52): skip a
missing/`None` timestamp, skip one `int()` cannot convert, otherwise keep
the larger of the accumulator and the converted value. -/
def scanParam (latest : Option Int) (p : Param) : Option Int :=
  match p.timestamp with
  | none => latest
  | some ts =>
    match ts.toIntOpt with
    | none => latest
    | some n =>
      match latest with
      | none => some n
      | some l => if n > l then some n else some l

/-- `_latest_param_ts` (lines 34-55): the latest convertible `"timestamp"`
across all parameters of all devices in `web_boiler_client.data`, `none`
when there is none. -/
def latestParamTs (data : List Device) : Option Int :=
  data.foldl (fun latest device => device.parameters.foldl scanParam latest) none

/-- Specification helper: the list of integer-convertible timestamps the
scan of `latestParamTs` visits, in visit order. -/
def convertibleTs (data : List Device) : List Int :=
  (data.map fun d =>
    d.parameters.filterMap fun p => p.timestamp.bind TsVal.toIntOpt).flatten

/-- Specification helper: the accumulator step of the timestamp scan on an
already-converted integer value. -/
def tsStep (acc : Option Int) (n : Int) : Option Int :=
  match acc with
  | none => some n
  | some l => if n > l then some n else some l

/-- Reasons the watchdog can decide to reload for (the `reload_reason`
variable of `_tick`; `staleData` carries the age `now_ts - latest_ts` that
the code interpolates into the message). -/
inductive ReloadReason where
  | websocketDisconnected
  | noTimestampsAvailable
  | staleData (age : Int)
  deriving DecidableEq, Repr

/-- The per-account dict `hass.data[DOMAIN][username]` as the watchdog uses
it: presence of the client entry, and the optional keys `_last_reload_ts`,
`_watchdog_started_ts`, `_watchdog_unsub` (absent key = `none`). -/
structure WdStore where
  hasClient : Bool
  lastReloadTs : Option Int
  watchdogStartedTs : Option Int
  watchdogUnsub : Option Nat
  deriving DecidableEq, Repr

/-- Environment for one watchdog `_tick`: the result of
`is_websocket_connected()` (`none` models the call raising) and the
client's device data scanned for timestamps. -/
structure WdEnv where
  connectedResult : Option Bool
  data : List Device
  deriving DecidableEq, Repr

/-- `_tick` lines 84-106: compute `reload_reason`.  Disconnected (or the
connectivity read raised) → `websocket disconnected`.  Otherwise, no
convertible timestamp at all → `no timestamps available` once more than two
full watchdog intervals passed since `_watchdog_started_ts` (default:
`now_ts`).  Otherwise stale when the newest timestamp is older than
`_STALE_SECONDS`. -/
def computeReason (store : WdStore) (nowTs : Int) (env : WdEnv) :
    Option ReloadReason :=
  let connected := match env.connectedResult with
    | some b => b
    | none => false
  if connected = false then
    some ReloadReason.websocketDisconnected
  else
    match latestParamTs env.data with
    | none =>
      if nowTs - (store.watchdogStartedTs.getD nowTs) >
          watchdogIntervalSeconds * 2 then
        some ReloadReason.noTimestampsAvailable
      else
        none
    | some latestTs =>
      if nowTs - latestTs > staleSeconds then
        some (ReloadReason.staleData (nowTs - latestTs))
      else
        none

/-- Observable actions of a watchdog `_tick` that fires, in program
order. -/
inductive WdEvent where
  | cancelTimer (id : Nat)
  | scheduleReload
  deriving DecidableEq, Repr

/-- Result of one watchdog `_tick`: updated store and timer world, the
computed reason, whether the cooldown suppressed a reload, whether a reload
was scheduled, and the ordered action trace. -/
structure WdOut where
  store : WdStore
  world : TimerWorld
  reason : Option ReloadReason
  suppressed : Bool
  reloadScheduled : Bool
  events : List WdEvent
  deriving DecidableEq, Repr

/-- The inner `_tick` of `_start_or_replace_watchdog` (lines 77-137):
return early without a client; compute `reload_reason`; return when there
is none; suppress (log only) when less than `_RELOAD_COOLDOWN_SECONDS`
elapsed since `_last_reload_ts` (default 0); otherwise record
`_last_reload_ts := now_ts`, pop and cancel the store's own watchdog timer,
and schedule the config-entry reload. -/
def watchdogTick (store : WdStore) (w : TimerWorld) (nowTs : Int)
    (env : WdEnv) : WdOut :=
  if store.hasClient = false then
    { store := store, world := w, reason := none, suppressed := false
      reloadScheduled := false, events := [] }
  else
    match computeReason store nowTs env with
    | none =>
      { store := store, world := w, reason := none, suppressed := false
        reloadScheduled := false, events := [] }
    | some r =>
      let lastReload := store.lastReloadTs.getD 0
      if nowTs - lastReload < reloadCooldownSeconds then
        { store := store, world := w, reason := some r, suppressed := true
          reloadScheduled := false, events := [] }
      else
        let store1 := { store with lastReloadTs := some nowTs }
        match store1.watchdogUnsub with
        | some id =>
          { store := { store1 with watchdogUnsub := none }
            world := { w with active := w.active.erase id }
            reason := some r, suppressed := false, reloadScheduled := true
            events := [WdEvent.cancelTimer id, WdEvent.scheduleReload] }
        | none =>
          { store := store1, world := w
            reason := some r, suppressed := false, reloadScheduled := true
            events := [WdEvent.scheduleReload] }

/-- A freshly created per-account store, as `async_setup_entry` in
`__init__.py` leaves it for the sensor platform: the client entry is set,
none of the watchdog keys exist yet. -/
def freshWdStore : WdStore :=
  { hasClient := true, lastReloadTs := none
    watchdogStartedTs := none, watchdogUnsub := none }

/-- `_start_or_replace_watchdog` (lines 58-75 and 139-142) acting on the
store found in `hass.data` (`none` = the account's dict was just
(re)created): pop and cancel any previous watchdog timer, `setdefault` the
last-reload timestamp to 0, install a fresh timer and record the start
timestamp. -/
def startOrReplaceWatchdog (store? : Option WdStore) (w : TimerWorld)
    (nowTs : Int) : WdStore × TimerWorld :=
  let st := store?.getD freshWdStore
  let p : WdStore × TimerWorld :=
    match st.watchdogUnsub with
    | some id =>
      ({ st with watchdogUnsub := none }, { w with active := w.active.erase id })
    | none => (st, w)
  let st1 := { p.1 with lastReloadTs := some (p.1.lastReloadTs.getD 0) }
  let newId := p.2.nextId
  ({ st1 with watchdogUnsub := some newId, watchdogStartedTs := some nowTs },
   { p.2 with nextId := newId + 1, active := newId :: p.2.active })

/-- The watchdog-timer bookkeeping invariant: the store's unsubscribe
handle and the host's active-timer list agree, and at most one watchdog
timer is active for the account. -/
def wdInvB (st : WdStore) (w : TimerWorld) : Bool :=
  match st.watchdogUnsub with
  | none => w.active == []
  | some id => w.active == [id] && decide (id < w.nextId)

/-! ## Theorems -/

/-- C4: every call to `relogin()` sets `last_relogin_timestamp` to the
invocation time as its first action, before any network call (closing the
websocket, closing the transport session, or re-authenticating), and this
update happens regardless of whether the subsequent relogin succeeds or
fails. -/
theorem C4_relogin_sets_timestamp_first (st : SysState) (env : ReloginEnv) :
    (relogin st env).state.lastReloginTimestamp = env.invocationTime ∧
    ∃ rest, (relogin st env).events =
      Event.setReloginTs env.invocationTime :: Event.closeWebsocket ::
      Event.closeHttpSession :: Event.clientRelogin :: rest := by
  unfold relogin
  cases hr : env.reloginResult <;> cases hf : env.refreshResult <;>
    simp [hr, hf]

/-- C3: for every invocation of `tick()` in which the websocket is observed
disconnected (including when the connectivity read itself raises), no
refresh is issued: `tick()` either invokes `relogin()` (exactly once, and
only when the elapsed time since `last_relogin_timestamp` exceeds the retry
interval) or does nothing, and returns without reaching the refresh
branch. -/
theorem C3_disconnected_tick_no_refresh (ri fi now : Int) (st : SysState)
    (env : TickEnv)
    (hdisc : env.connectedResult = none ∨ env.connectedResult = some false) :
    (tick ri fi now st env).refreshBranchTaken = false ∧
    (now - st.lastReloginTimestamp > ri →
      (tick ri fi now st env).reloginInvocations = 1 ∧
      (tick ri fi now st env).state = (relogin st env.reloginEnv).state ∧
      (tick ri fi now st env).events = (relogin st env.reloginEnv).events) ∧
    (¬ now - st.lastReloginTimestamp > ri →
      (tick ri fi now st env).reloginInvocations = 0 ∧
      (tick ri fi now st env).state = st ∧
      (tick ri fi now st env).events = []) := by
  unfold tick
  rcases hdisc with h | h <;> rw [h] <;>
    by_cases hel : now - st.lastReloginTimestamp > ri <;> simp [hel]

/-- C3 witness: a concrete disconnected tick (elapsed 161 > retry 100)
performs exactly one relogin and never takes the refresh branch. -/
theorem C3_disconnected_tick_no_refresh_witness :
    (tick 100 60 161 (initState 0)
      { connectedResult := some false, refreshResult := true,
        reloginEnv := { invocationTime := 161, reloginResult := false,
                        refreshResult := false, postRefreshTime := 0 } }).refreshBranchTaken
      = false ∧
    (tick 100 60 161 (initState 0)
      { connectedResult := some false, refreshResult := true,
        reloginEnv := { invocationTime := 161, reloginResult := false,
                        refreshResult := false, postRefreshTime := 0 } }).reloginInvocations
      = 1 :=
  ⟨(C3_disconnected_tick_no_refresh 100 60 161 (initState 0) _
      (Or.inr rfl)).1,
   ((C3_disconnected_tick_no_refresh 100 60 161 (initState 0) _
      (Or.inr rfl)).2.1 (by decide)).1⟩

/-- C5: for every invocation of `tick()` in which the websocket is
connected and the elapsed time since `last_refresh_timestamp` exceeds the
refresh interval, `last_refresh_timestamp` is set to the current time
before the refresh is issued (the `setRefreshTs now` action precedes the
`clientRefresh` action), and `relogin()` is invoked exactly once when the
refresh reports failure and not at all when it succeeds. -/
theorem C5_connected_refresh_order_and_relogin (ri fi now : Int)
    (st : SysState) (env : TickEnv)
    (hconn : env.connectedResult = some true)
    (helapsed : now - st.lastRefreshTimestamp > fi) :
    (tick ri fi now st env).refreshBranchTaken = true ∧
    (∃ rest, (tick ri fi now st env).events =
      Event.setRefreshTs now :: Event.clientRefresh :: rest) ∧
    (env.refreshResult = false →
      (tick ri fi now st env).reloginInvocations = 1) ∧
    (env.refreshResult = true →
      (tick ri fi now st env).reloginInvocations = 0) := by
  unfold tick
  rw [hconn]
  cases hf : env.refreshResult <;> simp [helapsed, hf]

/-- C5 witness: a connected tick with
`now - last_refresh_timestamp = refresh_interval + 1` (61 - 0 = 60 + 1) and
`refresh()` returning false takes the refresh branch and invokes
`relogin()` exactly once. -/
theorem C5_connected_refresh_order_and_relogin_witness :
    (tick 80 60 61 (initState 0)
      { connectedResult := some true, refreshResult := false,
        reloginEnv := { invocationTime := 61, reloginResult := false,
                        refreshResult := false, postRefreshTime := 0 } }).refreshBranchTaken
      = true ∧
    (tick 80 60 61 (initState 0)
      { connectedResult := some true, refreshResult := false,
        reloginEnv := { invocationTime := 61, reloginResult := false,
                        refreshResult := false, postRefreshTime := 0 } }).reloginInvocations
      = 1 :=
  ⟨(C5_connected_refresh_order_and_relogin 80 60 61 (initState 0) _
      rfl (by decide)).1,
   (C5_connected_refresh_order_and_relogin 80 60 61 (initState 0) _
      rfl (by decide)).2.2.1 rfl⟩

/-- C1 counterexample: with login returning false, `start()` does return
false having only attempted the login, but `async_setup_entry` then calls
`start_tick()` unconditionally, so the session whose `start()` failed ends
up with an active periodic tick timer — contradicting the claim that no
timer is started for such a session. -/
theorem C1_counterexample_timer_started_after_failed_login :
    (asyncSetupEntry 100 { nextId := 0, active := [] }
      { loginResult := false, getConfigurationResult := true,
        dataLen := 1, refreshTime := 100 }).startOk = false ∧
    (asyncSetupEntry 100 { nextId := 0, active := [] }
      { loginResult := false, getConfigurationResult := true,
        dataLen := 1, refreshTime := 100 }).state.tickUnsub = some 0 ∧
    (asyncSetupEntry 100 { nextId := 0, active := [] }
      { loginResult := false, getConfigurationResult := true,
        dataLen := 1, refreshTime := 100 }).world.active = [0] := by
  decide

/-- C1 (amended): if login returns false, `start()` returns false having
performed only the login call — no websocket opened, no refresh issued,
state unchanged; however `async_setup_entry` invokes `start_tick()`
unconditionally after `start()`, so the session still receives an active
periodic tick timer. -/
theorem C1_failed_login_start_behaviour (nowTs : Int) (w : TimerWorld)
    (env : StartEnv) (st : SysState) (h : env.loginResult = false) :
    (start st env).ok = false ∧
    (start st env).events = [Event.login] ∧
    (start st env).state = st ∧
    (asyncSetupEntry nowTs w env).state.tickUnsub = some w.nextId ∧
    (asyncSetupEntry nowTs w env).world.active = w.nextId :: w.active := by
  unfold asyncSetupEntry startTick cancelTick start initState
  simp [h]

/-- C1 witness: concrete failed login — `start()` returns false, yet the
entry setup leaves the tick timer installed. -/
theorem C1_failed_login_start_behaviour_witness :
    (start (initState 50)
      { loginResult := false, getConfigurationResult := true,
        dataLen := 1, refreshTime := 99 }).ok = false ∧
    (asyncSetupEntry 50 { nextId := 3, active := [] }
      { loginResult := false, getConfigurationResult := true,
        dataLen := 1, refreshTime := 99 }).state.tickUnsub = some 3 :=
  ⟨(C1_failed_login_start_behaviour 50 { nextId := 3, active := [] }
      { loginResult := false, getConfigurationResult := true,
        dataLen := 1, refreshTime := 99 } (initState 50) rfl).1,
   (C1_failed_login_start_behaviour 50 { nextId := 3, active := [] }
      { loginResult := false, getConfigurationResult := true,
        dataLen := 1, refreshTime := 99 } (initState 50) rfl).2.2.2.1⟩

/-- C8: at most one active periodic tick timer exists per session —
`start_tick()` and `cancel_tick()` preserve the timer invariant, two
consecutive `start_tick()` calls leave exactly the one timer installed by
the second call, `cancel_tick()` is a no-op when no timer is present, and
it is idempotent. -/
theorem C8_single_tick_timer (st : SysState) (w : TimerWorld)
    (hinv : tickTimerInvB st w = true) :
    tickTimerInvB (startTick st w).1 (startTick st w).2 = true ∧
    tickTimerInvB (cancelTick st w).1 (cancelTick st w).2 = true ∧
    (startTick (startTick st w).1 (startTick st w).2).2.active =
      [(startTick st w).2.nextId] ∧
    (st.tickUnsub = none → cancelTick st w = (st, w)) ∧
    cancelTick (cancelTick st w).1 (cancelTick st w).2 = cancelTick st w := by
  cases h : st.tickUnsub with
  | none =>
    simp [tickTimerInvB, h] at hinv
    simp [tickTimerInvB, startTick, cancelTick, h, hinv]
  | some id =>
    simp [tickTimerInvB, h] at hinv
    simp [tickTimerInvB, startTick, cancelTick, h, hinv.1]

/-- C8 witness: from a state holding timer 5 (the only active timer), the
conjuncts hold at a concrete input. -/
theorem C8_single_tick_timer_witness :
    (startTick (startTick (⟨0, 0, some 5⟩ : SysState)
        (⟨6, [5]⟩ : TimerWorld)).1
      (startTick (⟨0, 0, some 5⟩ : SysState) (⟨6, [5]⟩ : TimerWorld)).2).2.active =
      [(startTick (⟨0, 0, some 5⟩ : SysState)
        (⟨6, [5]⟩ : TimerWorld)).2.nextId] :=
  (C8_single_tick_timer (⟨0, 0, some 5⟩ : SysState) (⟨6, [5]⟩ : TimerWorld)
    (by decide)).2.2.1

/-- When the client entry is present, the reason a watchdog `_tick` reports
is exactly the computed `reload_reason`, whether or not the cooldown later
suppresses the reload. -/
theorem watchdogTick_reason_eq (store : WdStore) (w : TimerWorld)
    (nowTs : Int) (env : WdEnv) (hc : store.hasClient = true) :
    (watchdogTick store w nowTs env).reason = computeReason store nowTs env := by
  unfold watchdogTick
  cases h : computeReason store nowTs env with
  | none => simp [hc, h]
  | some r =>
    simp only [hc, h]
    split
    · simp_all
    · split
      · simp
      · cases hu : store.watchdogUnsub <;> simp [hu]

/-- C6: watchdog staleness detection — with parameters whose maximum
timestamp is `T`, a connected check at `T + staleness_threshold + 1`
produces the "stale data" reason, a check at `T + staleness_threshold - 1`
produces none, and a disconnected check (including a raising connectivity
read) produces "websocket disconnected" without consulting the
timestamps. -/
theorem C6_staleness_detection (store : WdStore) (w : TimerWorld)
    (T now : Int) (data : List Device) (hc : store.hasClient = true)
    (hdata : latestParamTs data = some T) :
    (watchdogTick store w (T + staleSeconds + 1)
      ⟨some true, data⟩).reason =
        some (ReloadReason.staleData (staleSeconds + 1)) ∧
    (watchdogTick store w (T + staleSeconds - 1)
      ⟨some true, data⟩).reason = none ∧
    (watchdogTick store w now ⟨some false, data⟩).reason =
      some ReloadReason.websocketDisconnected ∧
    (watchdogTick store w now ⟨none, data⟩).reason =
      some ReloadReason.websocketDisconnected := by
  refine ⟨?_, ?_, ?_, ?_⟩ <;> rw [watchdogTick_reason_eq _ _ _ _ hc] <;>
    unfold computeReason <;> simp [hdata]
  · omega
  · omega

/-- C6 witness: concrete stale/fresh/disconnected checks with maximum
parameter timestamp 1000. -/
theorem C6_staleness_detection_witness :
    (watchdogTick freshWdStore (⟨0, []⟩ : TimerWorld) (1000 + staleSeconds + 1)
      ⟨some true, [Device.mk [Param.mk (some (TsVal.vInt 1000))]]⟩).reason =
        some (ReloadReason.staleData (staleSeconds + 1)) ∧
    (watchdogTick freshWdStore (⟨0, []⟩ : TimerWorld) (1000 + staleSeconds - 1)
      ⟨some true, [Device.mk [Param.mk (some (TsVal.vInt 1000))]]⟩).reason =
        none :=
  ⟨(C6_staleness_detection freshWdStore (⟨0, []⟩ : TimerWorld) 1000 0
      [Device.mk [Param.mk (some (TsVal.vInt 1000))]] rfl (by decide)).1,
   (C6_staleness_detection freshWdStore (⟨0, []⟩ : TimerWorld) 1000 0
      [Device.mk [Param.mk (some (TsVal.vInt 1000))]] rfl (by decide)).2.1⟩

/-- C7: with a connected account and no convertible parameter timestamp at
all, the watchdog produces the "no timestamps available" reason exactly
when more than two full watchdog periods have elapsed since the recorded
start timestamp, and no reason before that. -/
theorem C7_no_timestamps_threshold (store : WdStore) (w : TimerWorld)
    (now s : Int) (data : List Device) (hc : store.hasClient = true)
    (hdata : latestParamTs data = none)
    (hs : store.watchdogStartedTs = some s) :
    (watchdogTick store w now ⟨some true, data⟩).reason =
      if now - s > watchdogIntervalSeconds * 2 then
        some ReloadReason.noTimestampsAvailable
      else none := by
  rw [watchdogTick_reason_eq _ _ _ _ hc]
  unfold computeReason
  simp [hdata, hs]

/-- C7 witness: a watchdog started at time 0 with no timestamps reports
"no timestamps available" at time 241 (just past two 120-second periods)
and nothing at time 240. -/
theorem C7_no_timestamps_threshold_witness :
    (watchdogTick (⟨true, none, some 0, none⟩ : WdStore)
      (⟨0, []⟩ : TimerWorld) 241 ⟨some true, ([] : List Device)⟩).reason =
        some ReloadReason.noTimestampsAvailable ∧
    (watchdogTick (⟨true, none, some 0, none⟩ : WdStore)
      (⟨0, []⟩ : TimerWorld) 240 ⟨some true, ([] : List Device)⟩).reason =
        none := by
  constructor
  · rw [C7_no_timestamps_threshold (⟨true, none, some 0, none⟩ : WdStore)
      (⟨0, []⟩ : TimerWorld) 241 0 ([] : List Device) rfl rfl rfl]
    decide
  · rw [C7_no_timestamps_threshold (⟨true, none, some 0, none⟩ : WdStore)
      (⟨0, []⟩ : TimerWorld) 240 0 ([] : List Device) rfl rfl rfl]
    decide

/-- C9: at most one active watchdog exists per account — starting a new
watchdog cancels and replaces any existing one (leaving exactly one active
timer) and resets the recorded start timestamp; a watchdog `_tick`
preserves the invariant, and when it decides to reload it cancels its own
timer before scheduling the platform reload (the `cancelTimer` action
precedes `scheduleReload` and the account's active-timer list is left
empty). -/
theorem C9_single_watchdog (st : WdStore) (w : TimerWorld) (now : Int)
    (env : WdEnv) (hinv : wdInvB st w = true) :
    wdInvB (startOrReplaceWatchdog (some st) w now).1
      (startOrReplaceWatchdog (some st) w now).2 = true ∧
    (startOrReplaceWatchdog (some st) w now).2.active.length = 1 ∧
    (startOrReplaceWatchdog (some st) w now).1.watchdogStartedTs = some now ∧
    wdInvB (watchdogTick st w now env).store
      (watchdogTick st w now env).world = true ∧
    (∀ id, st.watchdogUnsub = some id →
      (watchdogTick st w now env).reloadScheduled = true →
      (watchdogTick st w now env).events =
        [WdEvent.cancelTimer id, WdEvent.scheduleReload] ∧
      (watchdogTick st w now env).store.watchdogUnsub = none ∧
      (watchdogTick st w now env).world.active = []) := by
  have hstart :
      wdInvB (startOrReplaceWatchdog (some st) w now).1
        (startOrReplaceWatchdog (some st) w now).2 = true ∧
      (startOrReplaceWatchdog (some st) w now).2.active.length = 1 ∧
      (startOrReplaceWatchdog (some st) w now).1.watchdogStartedTs =
        some now := by
    cases h : st.watchdogUnsub with
    | none =>
      simp [wdInvB, h] at hinv
      simp [startOrReplaceWatchdog, wdInvB, h, hinv]
    | some id =>
      simp [wdInvB, h] at hinv
      simp [startOrReplaceWatchdog, wdInvB, h, hinv.1]
  have htick :
      wdInvB (watchdogTick st w now env).store
        (watchdogTick st w now env).world = true ∧
      (∀ id, st.watchdogUnsub = some id →
        (watchdogTick st w now env).reloadScheduled = true →
        (watchdogTick st w now env).events =
          [WdEvent.cancelTimer id, WdEvent.scheduleReload] ∧
        (watchdogTick st w now env).store.watchdogUnsub = none ∧
        (watchdogTick st w now env).world.active = []) := by
    cases hcl : st.hasClient with
    | false => simp [watchdogTick, hcl, hinv]
    | true =>
      cases hr : computeReason st now env with
      | none => simp [watchdogTick, hcl, hr, hinv]
      | some r =>
        by_cases hcd : now - st.lastReloadTs.getD 0 < reloadCooldownSeconds
        · simp [watchdogTick, hcl, hr, hcd, hinv]
        · cases h : st.watchdogUnsub with
          | none =>
            simp [wdInvB, h] at hinv
            simp [watchdogTick, wdInvB, hcl, hr, hcd, h, hinv]
          | some id =>
            simp [wdInvB, h] at hinv
            simp [watchdogTick, wdInvB, hcl, hr, hcd, h, hinv.1]
  exact ⟨hstart.1, hstart.2.1, hstart.2.2, htick.1, htick.2⟩

/-- C9 witness: replacing the watchdog of an account holding timer 4
leaves exactly one active timer and resets the start timestamp, and a
firing tick (disconnected account, off cooldown) cancels timer 4 before
scheduling the reload. -/
theorem C9_single_watchdog_witness :
    (startOrReplaceWatchdog (some (⟨true, some 0, some 0, some 4⟩ : WdStore))
      (⟨5, [4]⟩ : TimerWorld) 7000).2.active.length = 1 ∧
    (watchdogTick (⟨true, some 0, some 0, some 4⟩ : WdStore)
      (⟨5, [4]⟩ : TimerWorld) 7000
      ⟨some false, ([] : List Device)⟩).events =
        [WdEvent.cancelTimer 4, WdEvent.scheduleReload] :=
  ⟨(C9_single_watchdog (⟨true, some 0, some 0, some 4⟩ : WdStore)
      (⟨5, [4]⟩ : TimerWorld) 7000 ⟨some false, ([] : List Device)⟩
      (by decide)).2.1,
   ((C9_single_watchdog (⟨true, some 0, some 0, some 4⟩ : WdStore)
      (⟨5, [4]⟩ : TimerWorld) 7000 ⟨some false, ([] : List Device)⟩
      (by decide)).2.2.2.2 4 rfl (by decide)).1⟩

/-- C2 (code bug): the watchdog's 15-minute reload cooldown does not
survive the platform reload the watchdog itself schedules.  At `t0 = 10000`
a watchdog of a disconnected account fires a reload and records
`_last_reload_ts = t0`; the reload recreates the per-account store
(`async_unload_entry` pops it and `async_setup_entry` assigns a fresh
dict), so the replacement watchdog starts with `_last_reload_ts = 0`
(`setdefault`), and a reason found at `t0 + 1` fires a second reload
instead of being suppressed — contradicting the claimed cooldown
guarantee. -/
theorem C2_cooldown_defeated_by_store_reset :
    (watchdogTick (startOrReplaceWatchdog none (⟨0, []⟩ : TimerWorld) 9000).1
      (startOrReplaceWatchdog none (⟨0, []⟩ : TimerWorld) 9000).2 10000
      ⟨some false, ([] : List Device)⟩).reloadScheduled = true ∧
    (watchdogTick (startOrReplaceWatchdog none (⟨0, []⟩ : TimerWorld) 9000).1
      (startOrReplaceWatchdog none (⟨0, []⟩ : TimerWorld) 9000).2 10000
      ⟨some false, ([] : List Device)⟩).store.lastReloadTs = some 10000 ∧
    (watchdogTick (startOrReplaceWatchdog none
        (watchdogTick (startOrReplaceWatchdog none (⟨0, []⟩ : TimerWorld) 9000).1
          (startOrReplaceWatchdog none (⟨0, []⟩ : TimerWorld) 9000).2 10000
          ⟨some false, ([] : List Device)⟩).world 10000).1
      (startOrReplaceWatchdog none
        (watchdogTick (startOrReplaceWatchdog none (⟨0, []⟩ : TimerWorld) 9000).1
          (startOrReplaceWatchdog none (⟨0, []⟩ : TimerWorld) 9000).2 10000
          ⟨some false, ([] : List Device)⟩).world 10000).2 10001
      ⟨some false, ([] : List Device)⟩).reloadScheduled = true ∧
    (watchdogTick (startOrReplaceWatchdog none
        (watchdogTick (startOrReplaceWatchdog none (⟨0, []⟩ : TimerWorld) 9000).1
          (startOrReplaceWatchdog none (⟨0, []⟩ : TimerWorld) 9000).2 10000
          ⟨some false, ([] : List Device)⟩).world 10000).1
      (startOrReplaceWatchdog none
        (watchdogTick (startOrReplaceWatchdog none (⟨0, []⟩ : TimerWorld) 9000).1
          (startOrReplaceWatchdog none (⟨0, []⟩ : TimerWorld) 9000).2 10000
          ⟨some false, ([] : List Device)⟩).world 10000).2 10001
      ⟨some false, ([] : List Device)⟩).suppressed = false := by
  decide

/-- The per-parameter scan step acts as `tsStep` on the converted value and
skips parameters whose timestamp is absent or not convertible. -/
theorem scanParam_eq (acc : Option Int) (p : Param) :
    scanParam acc p =
      match p.timestamp.bind TsVal.toIntOpt with
      | none => acc
      | some n => tsStep acc n := by
  unfold scanParam tsStep
  cases hp : p.timestamp with
  | none => simp
  | some ts => cases ht : ts.toIntOpt <;> simp [ht]

/-- Folding the scan over a parameter list is folding `tsStep` over the
convertible timestamps. -/
theorem foldl_scanParam_eq (ps : List Param) (acc : Option Int) :
    ps.foldl scanParam acc =
      (ps.filterMap fun p => p.timestamp.bind TsVal.toIntOpt).foldl
        tsStep acc := by
  induction ps generalizing acc with
  | nil => rfl
  | cons p ps ih =>
    rw [List.foldl_cons, List.filterMap_cons, scanParam_eq]
    cases h : p.timestamp.bind TsVal.toIntOpt with
    | none => exact ih acc
    | some n => rw [List.foldl_cons]; exact ih (tsStep acc n)

/-- `_latest_param_ts` is the `tsStep` fold over all convertible
timestamps, in visit order. -/
theorem latestParamTs_eq_foldl (data : List Device) :
    latestParamTs data = (convertibleTs data).foldl tsStep none := by
  have key : ∀ (ds : List Device) (acc : Option Int),
      ds.foldl (fun latest device => device.parameters.foldl scanParam latest)
          acc =
        (convertibleTs ds).foldl tsStep acc := by
    intro ds
    induction ds with
    | nil => intro acc; rfl
    | cons d ds ih =>
      intro acc
      rw [List.foldl_cons, ih, foldl_scanParam_eq]
      unfold convertibleTs
      rw [List.map_cons, List.flatten_cons, List.foldl_append]
  exact key data none

/-- Folding `tsStep` from a `some` accumulator yields the maximum of the
accumulator and the list. -/
theorem foldl_tsStep_spec (l : List Int) (x : Int) :
    ∃ y, l.foldl tsStep (some x) = some y ∧ (y = x ∨ y ∈ l) ∧ x ≤ y ∧
      ∀ n ∈ l, n ≤ y := by
  induction l generalizing x with
  | nil => exact ⟨x, rfl, Or.inl rfl, le_refl x, by simp⟩
  | cons a l ih =>
    have hstep : tsStep (some x) a = some (max x a) := by
      show (if a > x then some a else some x) = some (max x a)
      rcases le_or_lt a x with h | h
      · rw [if_neg (not_lt.mpr h), max_eq_left h]
      · rw [if_pos h, max_eq_right h.le]
    rw [List.foldl_cons, hstep]
    obtain ⟨y, hy, hmem, hxy, hall⟩ := ih (max x a)
    refine ⟨y, hy, ?_, le_trans (le_max_left x a) hxy, ?_⟩
    · rcases hmem with h | h
      · rcases max_choice x a with hm | hm
        · exact Or.inl (h.trans hm)
        · exact Or.inr (by rw [h, hm]; exact List.mem_cons_self a l)
      · exact Or.inr (List.mem_cons_of_mem _ h)
    · intro n hn
      rcases List.mem_cons.mp hn with rfl | hn
      · exact le_trans (le_max_right x n) hxy
      · exact hall n hn

/-- C10: for every account data collection — including parameters with
missing, `None`, or non-integer-convertible timestamp values — the
watchdog's maximum-timestamp scan never raises: it skips every parameter
without an integer-convertible timestamp, returns `none` exactly when no
parameter has a convertible timestamp, and otherwise returns the integer
maximum of the convertible timestamps. -/
theorem C10_latest_param_ts_total (data : List Device) :
    (latestParamTs data = none ↔ convertibleTs data = []) ∧
    ∀ m, latestParamTs data = some m →
      m ∈ convertibleTs data ∧ ∀ n ∈ convertibleTs data, n ≤ m := by
  rw [latestParamTs_eq_foldl]
  cases hc : convertibleTs data with
  | nil => simp
  | cons a l =>
    rw [List.foldl_cons]
    rw [show tsStep none a = some a from rfl]
    obtain ⟨y, hy, hmem, hxy, hall⟩ := foldl_tsStep_spec l a
    rw [hy]
    constructor
    · simp
    · intro m hm
      injection hm with hm
      subst hm
      constructor
      · rcases hmem with h | h
        · rw [h]; exact List.mem_cons_self a l
        · exact List.mem_cons_of_mem _ h
      · intro n hn
        rcases List.mem_cons.mp hn with rfl | hn
        · exact hxy
        · exact hall n hn

/-- C10 witness: on a device with timestamps 5 and 12, one non-convertible
value and one absent value, the scan returns 12, which belongs to the
convertible timestamps and bounds them. -/
theorem C10_latest_param_ts_total_witness :
    (12 : Int) ∈ convertibleTs
      [Device.mk [Param.mk (some (TsVal.vInt 5)), Param.mk (some TsVal.vOther),
        Param.mk none, Param.mk (some (TsVal.vInt 12))]] ∧
    ∀ n ∈ convertibleTs
      [Device.mk [Param.mk (some (TsVal.vInt 5)), Param.mk (some TsVal.vOther),
        Param.mk none, Param.mk (some (TsVal.vInt 12))]], n ≤ 12 :=
  (C10_latest_param_ts_total
    [Device.mk [Param.mk (some (TsVal.vInt 5)), Param.mk (some TsVal.vOther),
      Param.mk none, Param.mk (some (TsVal.vInt 12))]]).2 12 (by decide)

end Centrometal
